import Mathlib

/-!
Verification of the derived-state computation engine of the lana-app
personal-finance backend: date-rollover arithmetic for fixed payments,
budget threshold classification, monthly/category aggregation, and the
budget / notification CRUD state transitions.

Machine dates are embedded as proleptic Gregorian calendar dates with a
time-of-day component; monetary amounts are embedded as rationals.
-/

namespace Lana

/-- Gregorian leap-year test, as used by Python's `calendar` module. -/
def isLeap (y : Nat) : Bool :=
  y % 4 == 0 && (y % 100 != 0 || y % 400 == 0)

/-- Number of days of month `m` (1..12) in year `y`;
`calendar.monthrange(y, m)[1]`. -/
def daysInMonth (y m : Nat) : Nat :=
  if m = 2 then (if isLeap y then 29 else 28)
  else if m = 4 ∨ m = 6 ∨ m = 9 ∨ m = 11 then 30
  else 31

/-- Cumulative days before month `m` within a year, before leap correction. -/
def monthOffset (m : Nat) : Nat :=
  match m with
  | 1 => 0 | 2 => 31 | 3 => 59 | 4 => 90 | 5 => 120 | 6 => 151
  | 7 => 181 | 8 => 212 | 9 => 243 | 10 => 273 | 11 => 304 | 12 => 334
  | _ => 365

/-- Days elapsed in year `y` before the first day of month `m`. -/
def daysBeforeMonth (y m : Nat) : Nat :=
  monthOffset m + (if 3 ≤ m then (if isLeap y then 1 else 0) else 0)

/-- Days elapsed before January 1 of year `y` since the proleptic epoch. -/
def daysBeforeYear (y : Nat) : Nat :=
  365 * (y - 1) + (y - 1) / 4 - (y - 1) / 100 + (y - 1) / 400

/-- A civil instant: calendar date plus an abstract time-of-day component
(`sec`, larger means later within the day).  Mirrors Python `datetime`;
the date constructed by the code under analysis always has `sec = 0`
(midnight). -/
structure DateTime where
  year : Nat
  month : Nat
  day : Nat
  sec : Nat
deriving DecidableEq

/-- Proleptic Gregorian ordinal of an instant's calendar date: instants on
later dates get strictly larger values, and differences of `toDays` are the
`.days` of Python `date` subtraction. -/
def toDays (dt : DateTime) : Nat :=
  daysBeforeYear dt.year + daysBeforeMonth dt.year dt.month + dt.day

/-- Instant order `a <= b` (Python `datetime` comparison). -/
def dtLe (a b : DateTime) : Prop :=
  toDays a < toDays b ∨ (toDays a = toDays b ∧ a.sec ≤ b.sec)

instance decDtLe (a b : DateTime) : Decidable (dtLe a b) := by
  unfold dtLe; infer_instance

/-- Instant order `a < b` (Python `datetime` comparison, strict). -/
def dtLt (a b : DateTime) : Prop :=
  toDays a < toDays b ∨ (toDays a = toDays b ∧ a.sec < b.sec)

instance decDtLt (a b : DateTime) : Decidable (dtLt a b) := by
  unfold dtLt; infer_instance

/-- A real instant has a month in 1..12 and a day within the month's length
(and a positive year, as Python `datetime` requires `MINYEAR = 1`). -/
def ValidDate (dt : DateTime) : Prop :=
  1 ≤ dt.year ∧ 1 ≤ dt.month ∧ dt.month ≤ 12 ∧
    1 ≤ dt.day ∧ dt.day ≤ daysInMonth dt.year dt.month

instance decValidDate (dt : DateTime) : Decidable (ValidDate dt) := by
  unfold ValidDate; infer_instance

/-- Model of `calculate_next_due_date` from `routers/fixed_payments.py`, with the
reference instant `now` passed explicitly.  The `except ValueError` branch
of the source is dead code: the constructed day is always clamped into
`1..daysInMonth`, so the constructor cannot fail. -/
def calculate_next_due_date (due_day : Nat) (now : DateTime) : DateTime :=
  let year := now.year
  let month := now.month
  let max_day := daysInMonth year month
  let actual_due_day := min due_day max_day
  let next_due : DateTime := ⟨year, month, actual_due_day, 0⟩
  if dtLe next_due now then
    let year2 := if month = 12 then year + 1 else year
    let month2 := if month = 12 then 1 else month + 1
    let max_day2 := daysInMonth year2 month2
    let actual_due_day2 := min due_day max_day2
    (⟨year2, month2, actual_due_day2, 0⟩ : DateTime)
  else
    next_due

/-- Model of `get_payment_status` from `routers/fixed_payments.py`, reading the
payment's `is_active` flag. -/
def get_payment_status (is_active : Bool) (days_until_due : Int) : String :=
  if is_active = false then "inactive"
  else if days_until_due < 0 then "overdue"
  else if days_until_due = 0 then "due"
  else if days_until_due ≤ 2 then "warning"
  else "upcoming"

/-- Model of `days_until_due` as computed by the payment listing endpoints:
`(next_due.date() - now.date()).days`, with the same reference instant
used for both the due-date computation and the subtraction. -/
def days_until_due (due_day : Nat) (now : DateTime) : Int :=
  (toDays (calculate_next_due_date due_day now) : Int) - (toDays now : Int)

-- Calendar arithmetic lemmas

theorem isLeap_iff (y : Nat) :
    isLeap y = true ↔ (y % 4 = 0 ∧ (y % 100 ≠ 0 ∨ y % 400 = 0)) := by
  simp [isLeap]

theorem daysInMonth_ge (y m : Nat) : 28 ≤ daysInMonth y m := by
  unfold daysInMonth
  split
  · split <;> omega
  · split <;> omega

theorem daysInMonth_le (y m : Nat) : daysInMonth y m ≤ 31 := by
  unfold daysInMonth
  split
  · split <;> omega
  · split <;> omega

theorem daysInMonth_december (y : Nat) : daysInMonth y 12 = 31 := by
  simp [daysInMonth]

theorem daysBeforeMonth_one (y : Nat) : daysBeforeMonth y 1 = 0 := by
  simp [daysBeforeMonth, monthOffset]

theorem daysBeforeMonth_succ (y m : Nat) (h1 : 1 ≤ m) (h2 : m ≤ 11) :
    daysBeforeMonth y (m + 1) = daysBeforeMonth y m + daysInMonth y m := by
  interval_cases m <;>
    cases hL : isLeap y <;>
      simp [daysBeforeMonth, daysInMonth, monthOffset, hL]

theorem daysBeforeMonth_december (y : Nat) :
    daysBeforeMonth y 12 = 334 + (if isLeap y then 1 else 0) := by
  cases hL : isLeap y <;> simp [daysBeforeMonth, monthOffset, hL]

theorem daysBeforeYear_succ (y : Nat) (h : 1 ≤ y) :
    daysBeforeYear (y + 1) = daysBeforeYear y + (if isLeap y then 366 else 365) := by
  have hy : y - 1 + 1 = y := Nat.sub_add_cancel h
  have e4 := Nat.succ_div (y - 1) 4
  have e100 := Nat.succ_div (y - 1) 100
  have e400 := Nat.succ_div (y - 1) 400
  rw [hy] at e4 e100 e400
  by_cases hP : y % 4 = 0 ∧ (y % 100 ≠ 0 ∨ y % 400 = 0)
  · rw [if_pos ((isLeap_iff y).mpr hP)]
    unfold daysBeforeYear
    simp only [Nat.add_sub_cancel]
    rw [e4, e100, e400]
    split_ifs <;> omega
  · have hL : ¬ (isLeap y = true) := fun hb => hP ((isLeap_iff y).mp hb)
    rw [if_neg hL]
    unfold daysBeforeYear
    simp only [Nat.add_sub_cancel]
    rw [e4, e100, e400]
    split_ifs <;> omega

/-- Core inequality: the ordinal date returned by `calculate_next_due_date`
is strictly later than the reference instant's calendar date. -/
theorem toDays_lt_next_due (due_day : Nat) (now : DateTime)
    (h1 : 1 ≤ due_day) (hv : ValidDate now) :
    toDays now < toDays (calculate_next_due_date due_day now) := by
  obtain ⟨hy, hm1, hm2, hd1, hd2⟩ := hv
  simp only [calculate_next_due_date]
  by_cases hle : dtLe ⟨now.year, now.month, min due_day (daysInMonth now.year now.month), 0⟩ now
  · rw [if_pos hle]
    by_cases h12 : now.month = 12
    · simp only [h12, if_pos]
      have hstep := daysBeforeYear_succ now.year hy
      have hdec := daysBeforeMonth_december now.year
      have hone := daysBeforeMonth_one (now.year + 1)
      have hd31 : now.day ≤ 31 := by
        rw [h12, daysInMonth_december] at hd2; exact hd2
      have hge : 28 ≤ daysInMonth (now.year + 1) 1 := daysInMonth_ge _ _
      simp only [toDays, h12, hone, hdec, hstep]
      cases isLeap now.year <;> simp <;> omega
    · simp only [if_neg h12]
      have hstep := daysBeforeMonth_succ now.year now.month hm1 (by omega)
      have hge : 28 ≤ daysInMonth now.year (now.month + 1) := daysInMonth_ge _ _
      simp only [toDays, hstep]
      omega
  · rw [if_neg hle]
    unfold dtLe at hle
    push_neg at hle
    simp only [toDays] at hle ⊢
    omega


/-- Clamp-then-compare next-due-date algorithm as the specification words it
(C1): clamp the day to `min(due_day, days-in-month)`, build the candidate in
the reference month, and when the candidate is `<= now` advance to the next
month (rolling December into January of the next year), recompute the month
length, reclamp, and rebuild the candidate. -/
def spec_next_due (due_day : Nat) (now : DateTime) : DateTime :=
  let maxDay := daysInMonth now.year now.month
  let candidate : DateTime := ⟨now.year, now.month, min due_day maxDay, 0⟩
  if dtLe candidate now then
    let rollYear := if now.month = 12 then now.year + 1 else now.year
    let rollMonth := if now.month = 12 then 1 else now.month + 1
    let maxDay2 := daysInMonth rollYear rollMonth
    ⟨rollYear, rollMonth, min due_day maxDay2, 0⟩
  else
    candidate

/-- C1: for every due day in 1..31 and every valid reference instant,
`calculate_next_due_date` coincides with the spec's clamp-then-compare
algorithm; in particular due day 31 in the 30-day month June 2024 yields
day 30, and a same-day December 31 evaluation rolls over to January of the
next year. -/
theorem next_due_follows_spec_algorithm (due_day : Nat) (now : DateTime)
    (h1 : 1 ≤ due_day) (h2 : due_day ≤ 31) (hv : ValidDate now) :
    calculate_next_due_date due_day now = spec_next_due due_day now
    ∧ calculate_next_due_date 31 ⟨2024, 6, 1, 0⟩ = ⟨2024, 6, 30, 0⟩
    ∧ calculate_next_due_date 31 ⟨2024, 12, 31, 1⟩ = ⟨2025, 1, 31, 0⟩ := by
  refine ⟨rfl, by decide, by decide⟩

/-- Witness for C1 at due day 15 and a mid-May 2024 instant. -/
theorem next_due_follows_spec_algorithm_witness :
    (1 ≤ 15 ∧ 15 ≤ 31 ∧ ValidDate ⟨2024, 5, 10, 3600⟩)
    ∧ (calculate_next_due_date 15 ⟨2024, 5, 10, 3600⟩ = spec_next_due 15 ⟨2024, 5, 10, 3600⟩
       ∧ calculate_next_due_date 31 ⟨2024, 6, 1, 0⟩ = ⟨2024, 6, 30, 0⟩
       ∧ calculate_next_due_date 31 ⟨2024, 12, 31, 1⟩ = ⟨2025, 1, 31, 0⟩) :=
  ⟨⟨by decide, by decide, by decide⟩,
    next_due_follows_spec_algorithm 15 ⟨2024, 5, 10, 3600⟩ (by decide) (by decide) (by decide)⟩

/-- C2: for every due day in 1..31 and every valid reference instant, the
instant returned by `calculate_next_due_date` is strictly after `now`
(hence in particular never strictly before `now`); when the first candidate
is still in the future it is returned unchanged, and it too is strictly
after `now`. -/
theorem next_due_never_before_now (due_day : Nat) (now : DateTime)
    (h1 : 1 ≤ due_day) (h2 : due_day ≤ 31) (hv : ValidDate now) :
    dtLt now (calculate_next_due_date due_day now) :=
  Or.inl (toDays_lt_next_due due_day now h1 hv)

/-- Witness for C2 at the spec's same-day scenario: due day 15 evaluated on
May 15 midnight rolls to the next month, strictly after `now`. -/
theorem next_due_never_before_now_witness :
    (1 ≤ 15 ∧ 15 ≤ 31 ∧ ValidDate ⟨2024, 5, 15, 0⟩)
    ∧ dtLt ⟨2024, 5, 15, 0⟩ (calculate_next_due_date 15 ⟨2024, 5, 15, 0⟩) :=
  ⟨⟨by decide, by decide, by decide⟩,
    next_due_never_before_now 15 ⟨2024, 5, 15, 0⟩ (by decide) (by decide) (by decide)⟩

/-- C8: with one reference instant shared by the due-date computation and the
date subtraction, `days_until_due` is always at least 1, so
`get_payment_status` on an active payment fed from this pipeline returns
"warning" or "upcoming" and never reaches the "due" or "overdue" branches. -/
theorem pipeline_days_until_due_positive (due_day : Nat) (now : DateTime)
    (h1 : 1 ≤ due_day) (h2 : due_day ≤ 31) (hv : ValidDate now) :
    1 ≤ days_until_due due_day now
    ∧ (get_payment_status true (days_until_due due_day now) = "warning"
       ∨ get_payment_status true (days_until_due due_day now) = "upcoming") := by
  have hlt := toDays_lt_next_due due_day now h1 hv
  have hpos : 1 ≤ days_until_due due_day now := by
    unfold days_until_due; omega
  refine ⟨hpos, ?_⟩
  by_cases hc : days_until_due due_day now ≤ 2
  · left
    simp only [get_payment_status]
    rw [if_neg (by simp), if_neg (by omega), if_neg (by omega), if_pos hc]
  · right
    simp only [get_payment_status]
    rw [if_neg (by simp), if_neg (by omega), if_neg (by omega), if_neg hc]

/-- Witness for C8 at the spec scenario: due day 31 on 2024-02-20 gives a
positive `days_until_due` (in fact 9) and an "upcoming" status. -/
theorem pipeline_days_until_due_positive_witness :
    (1 ≤ 31 ∧ 31 ≤ 31 ∧ ValidDate ⟨2024, 2, 20, 0⟩)
    ∧ (1 ≤ days_until_due 31 ⟨2024, 2, 20, 0⟩
       ∧ (get_payment_status true (days_until_due 31 ⟨2024, 2, 20, 0⟩) = "warning"
          ∨ get_payment_status true (days_until_due 31 ⟨2024, 2, 20, 0⟩) = "upcoming")) :=
  ⟨⟨by decide, by decide, by decide⟩,
    pipeline_days_until_due_positive 31 ⟨2024, 2, 20, 0⟩ (by decide) (by decide) (by decide)⟩

-- Budgets

/-- A stored budget row (`models.Budget`). -/
structure BudgetRec where
  id : Nat
  user_id : Nat
  category : String
  amount : ℚ
  month : Nat
  year : Nat
deriving DecidableEq

/-- The percentage computed by `calculate_budget_status` and its call sites in
`routers/budgets.py`: `(spent_amount / budget.amount) * 100 if budget.amount > 0
else 0`. -/
def budget_percentage (b : BudgetRec) (spent_amount : ℚ) : ℚ :=
  if 0 < b.amount then spent_amount / b.amount * 100 else 0

/-- Model of `calculate_budget_status` from `routers/budgets.py`; a pure function of
the budget limit and the spent amount. -/
def calculate_budget_status (b : BudgetRec) (spent_amount : ℚ) : String :=
  if 100 ≤ budget_percentage b spent_amount then "exceeded"
  else if 80 ≤ budget_percentage b spent_amount then "warning"
  else "normal"

/-- C3: the percentage is `spent / limit * 100` for a positive limit and `0`
for a non-positive limit, and the status is "exceeded" iff the percentage is
at least 100, "warning" iff it is in `[80, 100)`, and "normal" otherwise,
with both boundaries exact. -/
theorem budget_status_thresholds (b : BudgetRec) (spent : ℚ) (hs : 0 ≤ spent) :
    (0 < b.amount → budget_percentage b spent = spent / b.amount * 100)
    ∧ (b.amount ≤ 0 → budget_percentage b spent = 0)
    ∧ (calculate_budget_status b spent = "exceeded" ↔ 100 ≤ budget_percentage b spent)
    ∧ (calculate_budget_status b spent = "warning" ↔
        80 ≤ budget_percentage b spent ∧ budget_percentage b spent < 100)
    ∧ (calculate_budget_status b spent = "normal" ↔ budget_percentage b spent < 80) := by
  refine ⟨fun h => by rw [budget_percentage, if_pos h],
          fun h => by rw [budget_percentage, if_neg (not_lt.mpr h)], ?_, ?_, ?_⟩ <;>
    · unfold calculate_budget_status
      split_ifs with hA hB <;> simp_all <;> linarith

/-- Witness for C3 at the spec scenario: limit 100, spent 80 gives
percentage 80 and status "warning". -/
theorem budget_status_thresholds_witness :
    (0 ≤ (80 : ℚ))
    ∧ ((0 < (100 : ℚ) → budget_percentage ⟨1, 1, "food", 100, 5, 2024⟩ 80 = 80 / 100 * 100)
       ∧ ((100 : ℚ) ≤ 0 → budget_percentage ⟨1, 1, "food", 100, 5, 2024⟩ 80 = 0)
       ∧ (calculate_budget_status ⟨1, 1, "food", 100, 5, 2024⟩ 80 = "exceeded" ↔
            100 ≤ budget_percentage ⟨1, 1, "food", 100, 5, 2024⟩ 80)
       ∧ (calculate_budget_status ⟨1, 1, "food", 100, 5, 2024⟩ 80 = "warning" ↔
            80 ≤ budget_percentage ⟨1, 1, "food", 100, 5, 2024⟩ 80
            ∧ budget_percentage ⟨1, 1, "food", 100, 5, 2024⟩ 80 < 100)
       ∧ (calculate_budget_status ⟨1, 1, "food", 100, 5, 2024⟩ 80 = "normal" ↔
            budget_percentage ⟨1, 1, "food", 100, 5, 2024⟩ 80 < 80)) :=
  ⟨by norm_num, budget_status_thresholds ⟨1, 1, "food", 100, 5, 2024⟩ 80 (by norm_num)⟩

/-- The duplicate check of `create_budget`: a stored budget of the same user
with the same category, month and year. -/
def duplicate_budget_exists (db : List BudgetRec) (uid : Nat) (category : String)
    (month year : Nat) : Bool :=
  db.any (fun b =>
    b.user_id == uid && b.category == category && b.month == month && b.year == year)

/-- The create-budget request body (`schemas.BudgetCreate`). -/
structure BudgetCreate where
  category : String
  amount : ℚ
  month : Nat
  year : Nat
deriving DecidableEq

/-- Model of `create_budget` from `routers/budgets.py` as a state transition on the
stored budget list: reject with the source's client-error message when a
budget with the same (user, category, month, year) exists, otherwise append
exactly one new row built from the request plus the caller's id. -/
def create_budget (db : List BudgetRec) (uid : Nat) (req : BudgetCreate)
    (newId : Nat) : Except String (List BudgetRec) :=
  if duplicate_budget_exists db uid req.category req.month req.year then
    Except.error "Ya existe un presupuesto para esta categoría en este mes"
  else
    Except.ok (db ++ [⟨newId, uid, req.category, req.amount, req.month, req.year⟩])

theorem duplicate_budget_exists_iff (db : List BudgetRec) (uid : Nat)
    (category : String) (month year : Nat) :
    duplicate_budget_exists db uid category month year = true ↔
      ∃ b ∈ db, b.user_id = uid ∧ b.category = category ∧ b.month = month ∧ b.year = year := by
  simp [duplicate_budget_exists, List.any_eq_true, Bool.and_eq_true, beq_iff_eq, and_assoc]

/-- C7: creating a budget fails with a client error and stores nothing when a
budget with the same (user, category, month, year) already exists, and
otherwise stores exactly one new budget carrying the requested fields. -/
theorem create_budget_duplicate_conflict (db : List BudgetRec) (uid : Nat)
    (req : BudgetCreate) (newId : Nat) :
    ((∃ b ∈ db, b.user_id = uid ∧ b.category = req.category
        ∧ b.month = req.month ∧ b.year = req.year) →
      create_budget db uid req newId =
        Except.error "Ya existe un presupuesto para esta categoría en este mes")
    ∧ ((¬ ∃ b ∈ db, b.user_id = uid ∧ b.category = req.category
        ∧ b.month = req.month ∧ b.year = req.year) →
      create_budget db uid req newId =
        Except.ok (db ++ [⟨newId, uid, req.category, req.amount, req.month, req.year⟩])) := by
  constructor
  · intro h
    rw [create_budget,
      if_pos ((duplicate_budget_exists_iff db uid req.category req.month req.year).mpr h)]
  · intro h
    rw [create_budget,
      if_neg (fun hb => h ((duplicate_budget_exists_iff db uid req.category req.month req.year).mp hb))]

/-- Witness for C7: a duplicate (user 1, "food", 5/2024) request is rejected
with the conflict message, and the same request against an empty store
creates exactly the one requested budget. -/
theorem create_budget_duplicate_conflict_witness :
    ((∃ b ∈ [(⟨1, 1, "food", 100, 5, 2024⟩ : BudgetRec)],
        b.user_id = 1 ∧ b.category = "food" ∧ b.month = 5 ∧ b.year = 2024)
     ∧ create_budget [⟨1, 1, "food", 100, 5, 2024⟩] 1 ⟨"food", 200, 5, 2024⟩ 9 =
        Except.error "Ya existe un presupuesto para esta categoría en este mes")
    ∧ ((¬ ∃ b ∈ ([] : List BudgetRec),
        b.user_id = 1 ∧ b.category = "food" ∧ b.month = 5 ∧ b.year = 2024)
     ∧ create_budget [] 1 ⟨"food", 200, 5, 2024⟩ 9 =
        Except.ok [⟨9, 1, "food", 200, 5, 2024⟩]) :=
  ⟨⟨by decide,
    (create_budget_duplicate_conflict [⟨1, 1, "food", 100, 5, 2024⟩] 1
      ⟨"food", 200, 5, 2024⟩ 9).1 (by decide)⟩,
   ⟨by decide,
    (create_budget_duplicate_conflict [] 1 ⟨"food", 200, 5, 2024⟩ 9).2 (by decide)⟩⟩

/-- The update-budget request body (`schemas.BudgetUpdate`): only an optional
amount. -/
structure BudgetUpdate where
  amount : Option ℚ
deriving DecidableEq

/-- The dynamic field-merge of `update_budget`: apply the provided fields
(only `amount` exists) onto the stored row, absent means unchanged. -/
def apply_budget_update (upd : BudgetUpdate) (b : BudgetRec) : BudgetRec :=
  match upd.amount with
  | some a => { b with amount := a }
  | none => b

/-- Model of `update_budget` from `routers/budgets.py` as a state transition: 404 when
no budget of the caller has the id, otherwise merge the update into the
matching row. -/
def update_budget (db : List BudgetRec) (uid budget_id : Nat)
    (upd : BudgetUpdate) : Except String (List BudgetRec) :=
  if db.any (fun b => b.id == budget_id && b.user_id == uid) then
    Except.ok (db.map (fun b =>
      if b.id == budget_id && b.user_id == uid then apply_budget_update upd b else b))
  else
    Except.error "Presupuesto no encontrado"

/-- The uniqueness key of a budget row. -/
def budget_key (b : BudgetRec) : Nat × String × Nat × Nat :=
  (b.user_id, b.category, b.month, b.year)

theorem apply_budget_update_key (upd : BudgetUpdate) (b : BudgetRec) :
    budget_key (apply_budget_update upd b) = budget_key b := by
  cases h : upd.amount <;> simp [apply_budget_update, h, budget_key]

/-- C10: a successful `update_budget` changes at most the amount: every row's
(user_id, category, month, year) key is unchanged (so is the list length),
and hence the per-key uniqueness established at creation is preserved. -/
theorem update_budget_frame (db : List BudgetRec) (uid budget_id : Nat)
    (upd : BudgetUpdate) (db2 : List BudgetRec)
    (h : update_budget db uid budget_id upd = Except.ok db2) :
    db2.map budget_key = db.map budget_key
    ∧ db2.length = db.length
    ∧ ((db.map budget_key).Nodup → (db2.map budget_key).Nodup) := by
  unfold update_budget at h
  by_cases hc : db.any (fun b => b.id == budget_id && b.user_id == uid) = true
  · rw [if_pos hc] at h
    injection h with h
    subst h
    have hkey : (fun b => budget_key
        (if b.id == budget_id && b.user_id == uid then apply_budget_update upd b else b)) =
        budget_key := by
      funext b
      split
      · exact apply_budget_update_key upd b
      · rfl
    refine ⟨?_, by simp, ?_⟩
    · rw [List.map_map]
      exact congrArg (List.map · db) hkey
    · intro hnd
      rw [List.map_map]
      rw [show (budget_key ∘ fun b =>
          if b.id == budget_id && b.user_id == uid then apply_budget_update upd b else b) =
          budget_key from funext fun b => congrFun hkey b]
      exact hnd
  · rw [if_neg hc] at h
    exact absurd h (by simp)

/-- Witness for C10: raising the amount of the stored "food" budget keeps its
key, the list length, and key uniqueness. -/
theorem update_budget_frame_witness :
    (update_budget [⟨1, 1, "food", 100, 5, 2024⟩] 1 1 ⟨some 250⟩ =
      Except.ok [⟨1, 1, "food", 250, 5, 2024⟩])
    ∧ (([(⟨1, 1, "food", 250, 5, 2024⟩ : BudgetRec)].map budget_key =
          [(⟨1, 1, "food", 100, 5, 2024⟩ : BudgetRec)].map budget_key)
       ∧ ([(⟨1, 1, "food", 250, 5, 2024⟩ : BudgetRec)].length =
          [(⟨1, 1, "food", 100, 5, 2024⟩ : BudgetRec)].length)
       ∧ (([(⟨1, 1, "food", 100, 5, 2024⟩ : BudgetRec)].map budget_key).Nodup →
          ([(⟨1, 1, "food", 250, 5, 2024⟩ : BudgetRec)].map budget_key).Nodup)) :=
  ⟨rfl, update_budget_frame [⟨1, 1, "food", 100, 5, 2024⟩] 1 1 ⟨some 250⟩
    [⟨1, 1, "food", 250, 5, 2024⟩] rfl⟩

-- Notifications

/-- Mirror of `models.NotificationType`. -/
inductive NotificationType
  | budget_warning
  | budget_exceeded
  | payment_reminder
  | insufficient_funds
  | report
deriving DecidableEq

/-- Mirror of `schemas.NotificationCreate`: the request body carries its own
`user_id`. -/
structure NotificationCreate where
  title : String
  message : String
  notification_type : NotificationType
  user_id : Nat
deriving DecidableEq

/-- A stored notification row (`models.Notification`) with the model's
defaults for the flag columns. -/
structure NotificationRec where
  user_id : Nat
  title : String
  message : String
  notification_type : NotificationType
  is_read : Bool
  sent_via_email : Bool
  sent_via_sms : Bool
deriving DecidableEq

/-- Model of `create_notification` from `routers/notifications.py`: the stored row is
built from `notification.dict()` alone; the resolved caller identity is
never consulted for the stored owner. -/
def create_notification (db : List NotificationRec) (current_user_id : Nat)
    (payload : NotificationCreate) : List NotificationRec :=
  db ++ [⟨payload.user_id, payload.title, payload.message,
          payload.notification_type, false, false, false⟩]

/-- C9: `create_notification` stores the owner from the payload, not from the
caller: two different authenticated callers running the same payload produce
identical stores, and the appended row's `user_id` is the payload's, so a
caller can create a notification owned by a different user. -/
theorem create_notification_owner_from_payload (db : List NotificationRec)
    (u1 u2 : Nat) (payload : NotificationCreate) :
    create_notification db u1 payload = create_notification db u2 payload
    ∧ create_notification db u1 payload =
        db ++ [⟨payload.user_id, payload.title, payload.message,
                payload.notification_type, false, false, false⟩] :=
  ⟨rfl, rfl⟩

-- Aggregation engine (analytics)

/-- Mirror of `models.TransactionType`. -/
inductive TransactionType
  | income
  | expense
deriving DecidableEq

/-- A stored transaction row (`models.Transaction`). -/
structure Transaction where
  id : Nat
  user_id : Nat
  amount : ℚ
  category : String
  transaction_type : TransactionType
  date : DateTime
deriving DecidableEq

/-- The period filter of the dashboard queries: same user, and the date's
extracted month and year equal the requested period. -/
def txInPeriod (uid month year : Nat) (t : Transaction) : Bool :=
  t.user_id == uid && t.date.month == month && t.date.year == year

/-- Sum of INCOME amounts of the user in the period (`income_sum` query). -/
def income_sum (txs : List Transaction) (uid month year : Nat) : ℚ :=
  ((txs.filter (fun t => txInPeriod uid month year t
      && t.transaction_type == TransactionType.income)).map (fun t => t.amount)).sum

/-- Signed sum of EXPENSE amounts of the user in the period, before the
absolute value is applied (`expense_sum` query result). -/
def expense_sum_raw (txs : List Transaction) (uid month year : Nat) : ℚ :=
  ((txs.filter (fun t => txInPeriod uid month year t
      && t.transaction_type == TransactionType.expense)).map (fun t => t.amount)).sum

/-- Count of the user's transactions of either type in the period
(`transactions_count` query). -/
def period_count (txs : List Transaction) (uid month year : Nat) : Nat :=
  (txs.filter (fun t => txInPeriod uid month year t)).length

/-- Mirror of `schemas.MonthlyAnalysis`. -/
structure MonthlyAnalysis where
  total_income : ℚ
  total_expenses : ℚ
  balance : ℚ
  transactions_count : Nat
deriving DecidableEq

/-- The `monthly_analysis` block of `get_dashboard_data`: income sum, absolute
value of the expense sum, their difference, and the period's transaction
count. -/
def monthly_analysis (txs : List Transaction) (uid month year : Nat) : MonthlyAnalysis :=
  let inc := income_sum txs uid month year
  let exp := |expense_sum_raw txs uid month year|
  ⟨inc, exp, inc - exp, period_count txs uid month year⟩

theorem list_sum_nonpos {l : List ℚ} (h : ∀ x ∈ l, x ≤ 0) : l.sum ≤ 0 := by
  induction l with
  | nil => simp
  | cons x l ih =>
      have hx := h x (by simp)
      have hl := ih (fun y hy => h y (by simp [hy]))
      simp only [List.sum_cons]
      linarith

theorem expense_sum_raw_nonpos (txs : List Transaction) (uid month year : Nat)
    (hneg : ∀ t ∈ txs, t.transaction_type = TransactionType.expense → t.amount < 0) :
    expense_sum_raw txs uid month year ≤ 0 := by
  apply list_sum_nonpos
  intro x hx
  simp only [List.mem_map, List.mem_filter, Bool.and_eq_true, beq_iff_eq] at hx
  obtain ⟨t, ⟨ht, _, htype⟩, rfl⟩ := hx
  exact le_of_lt (hneg t ht htype)

theorem period_count_partition (txs : List Transaction) (uid month year : Nat) :
    period_count txs uid month year =
      (txs.filter (fun t => txInPeriod uid month year t
        && t.transaction_type == TransactionType.income)).length
      + (txs.filter (fun t => txInPeriod uid month year t
        && t.transaction_type == TransactionType.expense)).length := by
  unfold period_count
  induction txs with
  | nil => rfl
  | cons t l ih =>
      by_cases hp : txInPeriod uid month year t = true
      · cases ht : t.transaction_type <;>
          simp [List.filter_cons, hp, ht, ih] <;> omega
      · simp only [Bool.not_eq_true] at hp
        simp [List.filter_cons, hp, ih]

/-- C4: with expense amounts stored negative, the dashboard's monthly block
returns `total_expenses` equal to the absolute value of the expense sum
(applied exactly once, so it equals the negated signed sum and is
non-negative), `total_income` equal to the income sum, `balance` exactly
`income - expenses`, and `transactions_count` counting both types. -/
theorem monthly_analysis_aggregation (txs : List Transaction) (uid month year : Nat)
    (hneg : ∀ t ∈ txs, t.transaction_type = TransactionType.expense → t.amount < 0) :
    (monthly_analysis txs uid month year).total_expenses =
        |expense_sum_raw txs uid month year|
    ∧ (monthly_analysis txs uid month year).total_expenses =
        -(expense_sum_raw txs uid month year)
    ∧ 0 ≤ (monthly_analysis txs uid month year).total_expenses
    ∧ (monthly_analysis txs uid month year).total_income = income_sum txs uid month year
    ∧ (monthly_analysis txs uid month year).balance =
        (monthly_analysis txs uid month year).total_income
          - (monthly_analysis txs uid month year).total_expenses
    ∧ (monthly_analysis txs uid month year).transactions_count =
        (txs.filter (fun t => txInPeriod uid month year t
          && t.transaction_type == TransactionType.income)).length
        + (txs.filter (fun t => txInPeriod uid month year t
          && t.transaction_type == TransactionType.expense)).length := by
  refine ⟨rfl, ?_, ?_, rfl, rfl, period_count_partition txs uid month year⟩
  · have h := expense_sum_raw_nonpos txs uid month year hneg
    simp only [monthly_analysis]
    exact abs_of_nonpos h
  · simp only [monthly_analysis]
    exact abs_nonneg _

/-- The spec's scenario transactions: expenses -50 and -30 on "food" and
income 1000 on "salary", all in May 2024, owned by user 1. -/
def scenario_txs : List Transaction :=
  [⟨1, 1, -50, "food", TransactionType.expense, ⟨2024, 5, 2, 0⟩⟩,
   ⟨2, 1, -30, "food", TransactionType.expense, ⟨2024, 5, 10, 0⟩⟩,
   ⟨3, 1, 1000, "salary", TransactionType.income, ⟨2024, 5, 1, 0⟩⟩]

/-- Witness for C4 at the spec scenario (income 1000, expenses 80,
balance 920, count 3). -/
theorem monthly_analysis_aggregation_witness :
    (∀ t ∈ scenario_txs,
        t.transaction_type = TransactionType.expense → t.amount < 0)
    ∧ ((monthly_analysis scenario_txs 1 5 2024).total_expenses =
          |expense_sum_raw scenario_txs 1 5 2024|
       ∧ (monthly_analysis scenario_txs 1 5 2024).total_expenses =
          -(expense_sum_raw scenario_txs 1 5 2024)
       ∧ 0 ≤ (monthly_analysis scenario_txs 1 5 2024).total_expenses
       ∧ (monthly_analysis scenario_txs 1 5 2024).total_income =
          income_sum scenario_txs 1 5 2024
       ∧ (monthly_analysis scenario_txs 1 5 2024).balance =
          (monthly_analysis scenario_txs 1 5 2024).total_income
            - (monthly_analysis scenario_txs 1 5 2024).total_expenses
       ∧ (monthly_analysis scenario_txs 1 5 2024).transactions_count =
          (scenario_txs.filter (fun t => txInPeriod 1 5 2024 t
            && t.transaction_type == TransactionType.income)).length
          + (scenario_txs.filter (fun t => txInPeriod 1 5 2024 t
            && t.transaction_type == TransactionType.expense)).length) :=
  ⟨by decide, monthly_analysis_aggregation scenario_txs 1 5 2024 (by decide)⟩

/-- The period's EXPENSE transactions of the user (grouping base of the
category query). -/
def period_expense_txs (txs : List Transaction) (uid month year : Nat) : List Transaction :=
  txs.filter (fun t => txInPeriod uid month year t
    && t.transaction_type == TransactionType.expense)

/-- Mirror of `schemas.CategoryAnalysis`. -/
structure CategoryAnalysis where
  category : String
  amount : ℚ
  percentage : ℚ
  transaction_count : Nat
deriving DecidableEq

/-- The `category_breakdown` block of `get_dashboard_data`: one row per
distinct category among the period's expense transactions, carrying the
absolute group sum, its share of the total expenses (0 when the total is 0),
and the group size. -/
def breakdown_row (expTxs : List Transaction) (expense_sum : ℚ) (c : String) :
    CategoryAnalysis :=
  let group := expTxs.filter (fun t => t.category == c)
  let amount := |(group.map (fun t => t.amount)).sum|
  ⟨c, amount, if 0 < expense_sum then amount / expense_sum * 100 else 0, group.length⟩

/-- The category grouping loop of `get_dashboard_data`: one `breakdown_row`
per distinct category among the period's expense transactions, with the
share computed against the monthly block's absolute expense total. -/
def category_breakdown (txs : List Transaction) (uid month year : Nat) :
    List CategoryAnalysis :=
  ((period_expense_txs txs uid month year).map (fun t => t.category)).dedup.map
    (breakdown_row (period_expense_txs txs uid month year)
      |expense_sum_raw txs uid month year|)

theorem breakdown_row_percentage (expTxs : List Transaction) (E : ℚ) (c : String) :
    (breakdown_row expTxs E c).percentage =
      if 0 < E then
        |((expTxs.filter (fun t => t.category == c)).map (fun t => t.amount)).sum| / E * 100
      else 0 := rfl

theorem sum_fiberwise_cover (l : List Transaction) (K : Finset String)
    (hcov : ∀ t ∈ l, t.category ∈ K) :
    (∑ c ∈ K, ((l.filter (fun t => t.category == c)).map (fun t => t.amount)).sum)
      = (l.map (fun t => t.amount)).sum := by
  induction l with
  | nil => simp
  | cons t l ih =>
      have hK : t.category ∈ K := hcov t (by simp)
      have ihh := ih (fun x hx => hcov x (by simp [hx]))
      have hsplit : ∀ c ∈ K,
          (((t :: l).filter (fun s => s.category == c)).map (fun s => s.amount)).sum
          = (if c = t.category then t.amount else 0)
            + ((l.filter (fun s => s.category == c)).map (fun s => s.amount)).sum := by
        intro c _
        by_cases hc : t.category = c
        · simp [List.filter_cons, hc]
        · simp [List.filter_cons, beq_iff_eq, hc, Ne.symm hc]
      rw [Finset.sum_congr rfl hsplit, Finset.sum_add_distrib,
        Finset.sum_ite_eq' K t.category (fun _ => t.amount), if_pos hK, ihh]
      simp

theorem dedup_toFinset_eq (l : List String) : l.dedup.toFinset = l.toFinset := by
  ext a
  simp [List.mem_toFinset, List.mem_dedup]

theorem period_expense_txs_neg (txs : List Transaction) (uid month year : Nat)
    (hneg : ∀ t ∈ txs, t.transaction_type = TransactionType.expense → t.amount < 0) :
    ∀ t ∈ period_expense_txs txs uid month year, t.amount < 0 := by
  intro t ht
  have h := List.mem_filter.mp ht
  have htype : t.transaction_type = TransactionType.expense := by
    have h2 := h.2
    simp only [Bool.and_eq_true, beq_iff_eq] at h2
    exact h2.2
  exact hneg t h.1 htype

/-- C5: with expense amounts stored negative, every category-breakdown row's
percentage is `amount / total_expenses * 100` when the absolute expense total
is positive and 0 otherwise; when the total is positive the percentages sum
to exactly 100, and when it is 0 every percentage is 0. -/
theorem category_breakdown_percentages (txs : List Transaction) (uid month year : Nat)
    (hneg : ∀ t ∈ txs, t.transaction_type = TransactionType.expense → t.amount < 0) :
    (0 < |expense_sum_raw txs uid month year| →
      ((category_breakdown txs uid month year).map (fun r => r.percentage)).sum = 100)
    ∧ (|expense_sum_raw txs uid month year| = 0 →
      (category_breakdown txs uid month year).all
        (fun r => decide (r.percentage = 0)) = true)
    ∧ (category_breakdown txs uid month year).all
        (fun r => decide (r.percentage =
          (if 0 < |expense_sum_raw txs uid month year| then
            r.amount / |expense_sum_raw txs uid month year| * 100 else 0))) = true := by
  have hlneg : ∀ t ∈ period_expense_txs txs uid month year, t.amount < 0 :=
    period_expense_txs_neg txs uid month year hneg
  have hSnonpos : expense_sum_raw txs uid month year ≤ 0 :=
    expense_sum_raw_nonpos txs uid month year hneg
  refine ⟨?_, ?_, ?_⟩
  · intro hE
    unfold category_breakdown
    rw [List.map_map]
    have hfun : ((fun r => r.percentage) ∘
        breakdown_row (period_expense_txs txs uid month year)
          |expense_sum_raw txs uid month year|) =
        (fun c => -(((period_expense_txs txs uid month year).filter
            (fun t => t.category == c)).map (fun t => t.amount)).sum
          / |expense_sum_raw txs uid month year| * 100) := by
      funext c
      simp only [Function.comp, breakdown_row_percentage, if_pos hE]
      have hgneg : (((period_expense_txs txs uid month year).filter
          (fun t => t.category == c)).map (fun t => t.amount)).sum ≤ 0 := by
        apply list_sum_nonpos
        intro x hx
        simp only [List.mem_map] at hx
        obtain ⟨t, ht, rfl⟩ := hx
        exact le_of_lt (hlneg t (List.mem_filter.mp ht).1)
      rw [abs_of_nonpos hgneg]
    rw [hfun]
    rw [show ((((period_expense_txs txs uid month year).map (fun t => t.category)).dedup).map
        (fun c => -(((period_expense_txs txs uid month year).filter
            (fun t => t.category == c)).map (fun t => t.amount)).sum
          / |expense_sum_raw txs uid month year| * 100)).sum
        = ∑ c ∈ ((period_expense_txs txs uid month year).map (fun t => t.category)).toFinset,
            -(((period_expense_txs txs uid month year).filter
              (fun t => t.category == c)).map (fun t => t.amount)).sum
            / |expense_sum_raw txs uid month year| * 100 from by
      rw [← dedup_toFinset_eq]
      exact (List.sum_toFinset _ (List.nodup_dedup _)).symm]
    have hcov : ∀ t ∈ period_expense_txs txs uid month year,
        t.category ∈ ((period_expense_txs txs uid month year).map
          (fun t => t.category)).toFinset := by
      intro t ht
      simp only [List.mem_toFinset, List.mem_map]
      exact ⟨t, ht, rfl⟩
    have hfib := sum_fiberwise_cover (period_expense_txs txs uid month year)
      (((period_expense_txs txs uid month year).map (fun t => t.category)).toFinset) hcov
    rw [← Finset.sum_mul, ← Finset.sum_div, Finset.sum_neg_distrib, hfib]
    have hES : |expense_sum_raw txs uid month year| =
        -(((period_expense_txs txs uid month year).map (fun t => t.amount)).sum) :=
      abs_of_nonpos hSnonpos
    rw [← hES, div_self (ne_of_gt hE), one_mul]
  · intro hE
    rw [List.all_eq_true]
    intro r hr
    unfold category_breakdown at hr
    simp only [List.mem_map] at hr
    obtain ⟨c, _, rfl⟩ := hr
    simp only [decide_eq_true_eq, breakdown_row_percentage]
    rw [hE]
    simp
  · rw [List.all_eq_true]
    intro r hr
    unfold category_breakdown at hr
    simp only [List.mem_map] at hr
    obtain ⟨c, _, rfl⟩ := hr
    simp only [decide_eq_true_eq, breakdown_row_percentage]
    rfl

/-- Witness for C5 at the spec scenario: total expenses 80 > 0 and the single
"food" group carries 100 percent. -/
theorem category_breakdown_percentages_witness :
    (∀ t ∈ scenario_txs, t.transaction_type = TransactionType.expense → t.amount < 0)
    ∧ 0 < |expense_sum_raw scenario_txs 1 5 2024|
    ∧ ((category_breakdown scenario_txs 1 5 2024).map (fun r => r.percentage)).sum = 100
    ∧ (category_breakdown scenario_txs 1 5 2024).all
        (fun r => decide (r.percentage =
          (if 0 < |expense_sum_raw scenario_txs 1 5 2024| then
            r.amount / |expense_sum_raw scenario_txs 1 5 2024| * 100 else 0))) = true :=
  have hE : 0 < |expense_sum_raw scenario_txs 1 5 2024| := by
    rw [show expense_sum_raw scenario_txs 1 5 2024 = -80 from by with_unfolding_all rfl]
    norm_num
  ⟨by decide, hE,
   (category_breakdown_percentages scenario_txs 1 5 2024 (by decide)).1 hE,
   (category_breakdown_percentages scenario_txs 1 5 2024 (by decide)).2.2⟩

-- Monthly trend

/-- The `"YYYY-MM"` dictionary key built by `get_monthly_trend`
(`f-string` with a two-digit zero-padded month). -/
def monthKey (y m : Nat) : String :=
  toString y ++ "-" ++ (if m < 10 then "0" ++ toString m else toString m)

/-- Ordinal day of `start_date = now - timedelta(days=30 * months)`; the
subtraction keeps `now`'s time of day. -/
def trend_window_start (months : Nat) (now : DateTime) : Int :=
  (toDays now : Int) - 30 * months

/-- Holds when `d >= start_date` where `start_date` lies `30 * months` days before `now`
at the same time of day. -/
def instant_in_window (months : Nat) (now : DateTime) (d : DateTime) : Prop :=
  trend_window_start months now < (toDays d : Int)
  ∨ (trend_window_start months now = (toDays d : Int) ∧ now.sec ≤ d.sec)

instance decInstantInWindow (months : Nat) (now d : DateTime) :
    Decidable (instant_in_window months now d) := by
  unfold instant_in_window; infer_instance

/-- The row filter of `get_monthly_trend`: the user's transactions dated on or
after the window start.  The query has no upper date bound. -/
def txInTrendWindow (uid months : Nat) (now : DateTime) (t : Transaction) : Bool :=
  t.user_id == uid && decide (instant_in_window months now t.date)

/-- The grouped rows of `get_monthly_trend`, keyed by extracted
(year, month): per month, the income sum and the absolute expense sum of the
in-window transactions, an absent side staying at the dictionary's 0. -/
def trend_rows (txs : List Transaction) (uid months : Nat) (now : DateTime) :
    List ((Nat × Nat) × ℚ × ℚ) :=
  let winTxs := txs.filter (txInTrendWindow uid months now)
  ((winTxs.map (fun t => (t.date.year, t.date.month))).dedup).map (fun p =>
    (p,
     ((winTxs.filter (fun t => t.date.year == p.1 && t.date.month == p.2
        && t.transaction_type == TransactionType.income)).map (fun t => t.amount)).sum,
     |((winTxs.filter (fun t => t.date.year == p.1 && t.date.month == p.2
        && t.transaction_type == TransactionType.expense)).map (fun t => t.amount)).sum|))

/-- Model of `get_monthly_trend` from `routers/analytics.py`: the trend dictionary as
an association list keyed by `"YYYY-MM"`. -/
def get_monthly_trend (txs : List Transaction) (uid months : Nat) (now : DateTime) :
    List (String × ℚ × ℚ) :=
  (trend_rows txs uid months now).map (fun r => (monthKey r.1.1 r.1.2, r.2))

/-- An income transaction dated December 25, 2024 — months after the
reference instant June 15, 2024 used in the counterexample. -/
def future_tx : Transaction :=
  ⟨1, 1, 100, "salary", TransactionType.income, ⟨2024, 12, 25, 0⟩⟩

/-- Counterexample to C6: with a 1-month window ending June 15, 2024, a
transaction dated December 25, 2024 — strictly after "now" and outside any
1-month window — still contributes the entry "2024-12", because the query
only bounds dates from below by `now - 30 * months` days. -/
theorem monthly_trend_future_month_included :
    get_monthly_trend [future_tx] 1 1 ⟨2024, 6, 15, 0⟩ = [("2024-12", 100, 0)]
    ∧ (trend_rows [future_tx] 1 1 ⟨2024, 6, 15, 0⟩).map (fun r => r.1) = [(2024, 12)]
    ∧ dtLt ⟨2024, 6, 15, 0⟩ ⟨2024, 12, 25, 0⟩ :=
  ⟨by with_unfolding_all rfl, by with_unfolding_all rfl, by decide⟩

/-- C6 as amended: `trend_rows` has exactly one entry per (year, month) that
carries at least one of the user's transactions dated on/after
`now - 30 * months` days — with no upper bound, so months after "now" also
appear — whose income is the sum of that month's in-window income amounts and
whose expenses are the absolute sum of that month's in-window expense
amounts, a side with no transactions staying 0. -/
theorem monthly_trend_window_characterization (txs : List Transaction)
    (uid months : Nat) (now : DateTime) (y m : Nat) (inc ex : ℚ) :
    ((y, m), inc, ex) ∈ trend_rows txs uid months now ↔
      ((∃ t ∈ txs, txInTrendWindow uid months now t = true
          ∧ t.date.year = y ∧ t.date.month = m)
       ∧ inc = (((txs.filter (txInTrendWindow uid months now)).filter
            (fun t => t.date.year == y && t.date.month == m
              && t.transaction_type == TransactionType.income)).map (fun t => t.amount)).sum
       ∧ ex = |(((txs.filter (txInTrendWindow uid months now)).filter
            (fun t => t.date.year == y && t.date.month == m
              && t.transaction_type == TransactionType.expense)).map (fun t => t.amount)).sum|) := by
  unfold trend_rows
  simp only [List.mem_map]
  constructor
  · rintro ⟨p, hp, heq⟩
    obtain ⟨hpk, hinc, hex⟩ : p = (y, m)
        ∧ inc = ((((txs.filter (txInTrendWindow uid months now)).filter
            (fun t => t.date.year == p.1 && t.date.month == p.2
              && t.transaction_type == TransactionType.income)).map (fun t => t.amount)).sum)
        ∧ ex = |(((txs.filter (txInTrendWindow uid months now)).filter
            (fun t => t.date.year == p.1 && t.date.month == p.2
              && t.transaction_type == TransactionType.expense)).map (fun t => t.amount)).sum| := by
      have h1 := congrArg Prod.fst heq
      have h2 := congrArg (fun q => q.2.1) heq
      have h3 := congrArg (fun q => q.2.2) heq
      exact ⟨h1, h2.symm, h3.symm⟩
    subst hpk
    rw [List.mem_dedup, List.mem_map] at hp
    obtain ⟨t, htw, hkey⟩ := hp
    have htx := List.mem_filter.mp htw
    refine ⟨⟨t, htx.1, htx.2, ?_, ?_⟩, hinc, hex⟩
    · exact congrArg Prod.fst hkey
    · exact congrArg Prod.snd hkey
  · rintro ⟨⟨t, ht, hw, hy, hm⟩, hinc, hex⟩
    refine ⟨(y, m), ?_, ?_⟩
    · rw [List.mem_dedup, List.mem_map]
      exact ⟨t, List.mem_filter.mpr ⟨ht, hw⟩, by rw [hy, hm]⟩
    · rw [hinc, hex]

end Lana
